import Mathlib

/-!
Verification development for the 247-terminal widget exchange backend.

The definitions below are a shallow embedding of the backend code in
src/_documentation/backend_implementation_plan.md (the widget model,
service, controller, connection manager, rate limiter and WebSocket
handler) together with the frontend client in
src/src/services/websocket_service.ts.  JavaScript numbers are modelled
by an idealised numeric type with explicit NaN and infinity
constructors, since the only numeric operations the code performs on
trade amounts are truthiness, a typeof check and comparison with zero.
Stateful code (the postgres pool, the redis counters, the in-memory
connection map, socket sends and closes) is modelled by explicit state
passing and by emitted action lists.
-/

/-- Idealised JavaScript number: NaN, the two infinities, or a finite
value (modelled as a rational; rounding plays no role in the code under
study). -/
inductive JSNum where
  | nan : JSNum
  | posInf : JSNum
  | negInf : JSNum
  | finite : ℚ → JSNum
deriving DecidableEq

/-- The subset of JavaScript values that can appear in a trade-params
field of the issuance request body. -/
inductive JSVal where
  | num : JSNum → JSVal
  | str : String → JSVal
  | null : JSVal
  | undef : JSVal
  | boolean : Bool → JSVal
deriving DecidableEq

/-- JavaScript truthiness for `JSVal`: 0, NaN, the empty string, null,
undefined and false are falsy; everything else is truthy. -/
def js_truthy : JSVal → Bool
  | .num .nan => false
  | .num (.finite q) => q ≠ 0
  | .num _ => true
  | .str s => s ≠ ""
  | .null => false
  | .undef => false
  | .boolean b => b

/-- JavaScript `typeof v === 'number'`. -/
def js_is_number : JSVal → Bool
  | .num _ => true
  | _ => false

/-- JavaScript `n <= 0` on a number: false for NaN, false for +Infinity,
true for -Infinity, and the rational comparison for finite values. -/
def js_num_le_zero : JSNum → Bool
  | .nan => false
  | .posInf => false
  | .negInf => true
  | .finite q => q ≤ 0

/-- JavaScript `v <= 0` restricted to the values above (only reached by
the code after `typeof v === 'number'` has succeeded). -/
def js_le_zero : JSVal → Bool
  | .num n => js_num_le_zero n
  | _ => false

/-- JavaScript `['long', 'short'].includes(v)` (strict equality, so only
the two exact strings match). -/
def js_side_ok : JSVal → Bool
  | .str s => s = "long" || s = "short"
  | _ => false

/-- One row of `exchange_configurations` (backend plan, database
schema).  Fields not read by the modelled code paths (theme, feature
flags, timestamps) are omitted. -/
structure ExchangeConfig where
  exchange_id : String
  api_key : String
  secret_signing_key : String
  display_name : String
  allowed_origins : List String
  rate_limit_connections : Nat
  is_active : Bool
deriving DecidableEq

/-- `widget_model.get_exchange_config`: `SELECT * FROM
exchange_configurations WHERE exchange_id = $1 AND is_active = true`,
returning the first matching row or nothing. -/
def get_exchange_config (db : List ExchangeConfig) (exchange_id : String) :
    Option ExchangeConfig :=
  db.find? (fun c => c.exchange_id = exchange_id && c.is_active)

/-- `widget_model.get_exchange_by_api_key`: `SELECT * FROM
exchange_configurations WHERE api_key = $1` (note: no `is_active`
filter; the WebSocket handler checks activity separately). -/
def get_exchange_by_api_key (db : List ExchangeConfig) (api_key : String) :
    Option ExchangeConfig :=
  db.find? (fun c => c.api_key = api_key)

/-- The `trade_params` object of an issuance request. -/
structure TradeParams where
  coin : JSVal
  amount : JSVal
  side : JSVal
  news_id : JSVal
deriving DecidableEq

/-- One row of the `widget_trades` audit table, as inserted by
`widget_model.create_trade_log` (`status` is always 'initiated'). -/
structure TradeIntentRecord where
  trade_id : Nat
  exchange_id : String
  exchange_user_id : String
  trade_params : TradeParams
  status : String
deriving DecidableEq

/-- A JavaScript `Error` with the optional `code` property the widget
service attaches before throwing. -/
structure JsError where
  message : String
  code : Option String
deriving DecidableEq

/-- The persistence backend for `widget_trades`.  `outcomes` scripts the
success or failure of successive insert attempts (an empty list means
every attempt succeeds); `log` is the audit table contents; `next_id`
models `gen_random_uuid()` as a counter. -/
structure Store where
  outcomes : List Bool
  log : List TradeIntentRecord
  next_id : Nat
deriving DecidableEq

/-- Consume the scripted outcome of the next database attempt. -/
def db_attempt (store : Store) : Bool × Store :=
  match store.outcomes with
  | [] => (true, store)
  | o :: rest => (o, { store with outcomes := rest })

/-- `widget_model.create_trade_log`: one `INSERT INTO widget_trades ...
RETURNING trade_id` attempt.  On success the row is appended and the new
trade id returned; on failure the driver error is logged and rethrown
(modelled as an error value with no `code` property).  There is no retry
inside this function. -/
def create_trade_log (store : Store) (exchange_id exchange_user_id : String)
    (trade_params : TradeParams) : Except JsError Nat × Store :=
  match db_attempt store with
  | (true, s) =>
      (.ok s.next_id,
        { s with
            log := s.log ++
              [⟨s.next_id, exchange_id, exchange_user_id, trade_params,
                "initiated"⟩],
            next_id := s.next_id + 1 })
  | (false, s) => (.error ⟨"persistence failure", none⟩, s)

/-- The JWT payload built by `widget_service.create_signed_token`. -/
structure Payload where
  trade_id : Nat
  exchange_id : String
  user_id : String
  coin : JSVal
  amount : JSVal
  side : JSVal
  news_id : JSVal
  iat : Nat
  exp : Nat
deriving DecidableEq

/-- Symbolic signature value: `jwt.sign` is modelled as an ideal MAC, so
a signature is determined by (and discloses nothing but the identity of)
the signed payload and the signing key. -/
structure Sig where
  signed_payload : Payload
  key : String
deriving DecidableEq

/-- A JWT as wire data: the claims it carries plus the signature
attached to it.  Tampering keeps the signature but alters the carried
payload. -/
structure Token where
  payload : Payload
  sig : Sig
deriving DecidableEq

/-- `jwt.sign(payload, key)`. -/
def jwt_sign (p : Payload) (key : String) : Token := ⟨p, ⟨p, key⟩⟩

/-- `jwt.verify(token, key)` succeeds exactly when the attached
signature was produced over the carried payload with the presented
key. -/
def jwt_verify (t : Token) (key : String) : Bool :=
  t.sig = ⟨t.payload, key⟩

/-- `TOKEN_EXPIRY_SECONDS` in widget.service.js. -/
def TOKEN_EXPIRY_SECONDS : Nat := 30

/-- The success value of `widget_service.create_signed_token`. -/
structure TokenResult where
  token : Token
  trade_id : Nat
  expires_in : Nat
deriving DecidableEq

/-- The argument record of `widget_service.create_signed_token`. -/
structure IssueRequest where
  exchange_id : String
  exchange_user_id : String
  trade_params : TradeParams
deriving DecidableEq

/-- `widget_service.create_signed_token`, translated clause by clause:
resolve the active exchange config (throw INVALID_EXCHANGE otherwise),
run the three trade-params checks (throw INVALID_TRADE_PARAMS), insert
the audit row, then assemble and sign the JWT payload.  `now` is
`Math.floor(Date.now() / 1000)`.  The store is returned in both
branches because the audit table is external mutable state. -/
def create_signed_token (db : List ExchangeConfig) (store : Store) (now : Nat)
    (req : IssueRequest) : Except JsError TokenResult × Store :=
  match get_exchange_config db req.exchange_id with
  | none => (.error ⟨"invalid or inactive exchange id", some "INVALID_EXCHANGE"⟩, store)
  | some cfg =>
    if ¬ (js_truthy req.trade_params.coin && js_truthy req.trade_params.amount
          && js_truthy req.trade_params.side) then
      (.error ⟨"invalid trade parameters", some "INVALID_TRADE_PARAMS"⟩, store)
    else if ¬ js_side_ok req.trade_params.side then
      (.error ⟨"side must be long or short", some "INVALID_TRADE_PARAMS"⟩, store)
    else if ¬ js_is_number req.trade_params.amount
        || js_le_zero req.trade_params.amount then
      (.error ⟨"amount must be a positive number", some "INVALID_TRADE_PARAMS"⟩, store)
    else
      match create_trade_log store req.exchange_id req.exchange_user_id
          req.trade_params with
      | (.error e, s) => (.error e, s)
      | (.ok trade_id, s) =>
        let payload : Payload :=
          { trade_id := trade_id
            exchange_id := req.exchange_id
            user_id := req.exchange_user_id
            coin := req.trade_params.coin
            amount := req.trade_params.amount
            side := req.trade_params.side
            news_id := if js_truthy req.trade_params.news_id then
                req.trade_params.news_id else .null
            iat := now
            exp := now + TOKEN_EXPIRY_SECONDS }
        (.ok ⟨jwt_sign payload cfg.secret_signing_key, trade_id,
          TOKEN_EXPIRY_SECONDS⟩, s)

/-- The request body of `POST /widget/generate-trade-token` as read by
the controller.  A missing or non-object `trade_params` is `none`; the
two id fields are strings whose JavaScript falsiness is emptiness. -/
structure RequestBody where
  exchange_id : String
  exchange_user_id : String
  trade_params : Option TradeParams
deriving DecidableEq

/-- The externally visible HTTP outcome: `success_response` (HTTP 200
with the token result), `error_response(res, message, status)`, or the
`next(error)` path that ends in a generic 5xx server error. -/
inductive HttpResponse where
  | success : Token → Nat → Nat → HttpResponse
  | client_error : String → Nat → HttpResponse
  | server_error : HttpResponse
deriving DecidableEq

/-- `widget_controller.generate_trade_token`: field-presence validation,
the service call, and the catch clause mapping INVALID_EXCHANGE and
INVALID_TRADE_PARAMS to HTTP 400 and everything else to `next(error)`
(a server error). -/
def generate_trade_token (db : List ExchangeConfig) (store : Store) (now : Nat)
    (body : RequestBody) : HttpResponse × Store :=
  if body.exchange_id = "" then
    (.client_error "exchange_id is required" 400, store)
  else if body.exchange_user_id = "" then
    (.client_error "exchange_user_id is required" 400, store)
  else
    match body.trade_params with
    | none => (.client_error "trade_params object is required" 400, store)
    | some tp =>
      match create_signed_token db store now
          ⟨body.exchange_id, body.exchange_user_id, tp⟩ with
      | (.ok r, s) => (.success r.token r.trade_id r.expires_in, s)
      | (.error e, s) =>
        if e.code = some "INVALID_EXCHANGE" then (.client_error e.message 400, s)
        else if e.code = some "INVALID_TRADE_PARAMS" then
          (.client_error e.message 400, s)
        else (.server_error, s)

/-- The value stored per socket in the connection manager map
(`socket_id -> { socket, exchange_id, ip, connected_at }`; the socket
handle and timestamp are not read by the accounting logic). -/
structure ConnInfo where
  exchange_id : String
  ip : String
deriving DecidableEq

/-- The state owned by `widget_connection_manager`: the in-memory
`connections` map (modelled as an association list keyed by socket id)
together with the redis counters
`widget:connections:{exchange_id}:count` and
`widget:connections:ip:{ip}` (redis counters are signed: `DECR` can
drive them negative). -/
structure ManagerState where
  connections : List (String × ConnInfo)
  exch_count : String → Int
  ip_count : String → Int

/-- Pointwise bump of a string-keyed counter family (`INCR` and `DECR`
are both instances). -/
def bump (f : String → Int) (k : String) (d : Int) : String → Int :=
  fun k' => if k' = k then f k + d else f k'

/-- `widget_connection_manager.add_connection`: `Map.set` on the
in-memory map, then `INCR` of the exchange counter and the ip
counter. -/
def add_connection (socket_id exchange_id ip : String) (st : ManagerState) :
    ManagerState :=
  { connections :=
      (socket_id, ⟨exchange_id, ip⟩) ::
        st.connections.filter (fun p => p.1 ≠ socket_id)
    exch_count := bump st.exch_count exchange_id 1
    ip_count := bump st.ip_count ip 1 }

/-- `widget_connection_manager.remove_connection`: if the socket id is
absent from the map the call returns immediately (the guard that makes a
second teardown a no-op); otherwise the entry is deleted and both
counters are decremented. -/
def remove_connection (socket_id : String) (st : ManagerState) : ManagerState :=
  match st.connections.find? (fun p => p.1 = socket_id) with
  | none => st
  | some (_, info) =>
    { connections := st.connections.filter (fun p => p.1 ≠ socket_id)
      exch_count := bump st.exch_count info.exchange_id (-1)
      ip_count := bump st.ip_count info.ip (-1) }

/-- `widget_connection_manager.graceful_shutdown`: every socket is sent
the shutdown notice and closed with 4009, then the in-memory map is
cleared.  No counter is touched. -/
def graceful_shutdown (st : ManagerState) : ManagerState :=
  { st with connections := [] }

/-- The `socket.on('close')` handler of widget.websocket.js: stop the
timers, then call `remove_connection` only when the session had
authenticated.  During a graceful shutdown this event fires on a later
event-loop tick, after `graceful_shutdown` has already cleared the
map. -/
def on_close_event (is_authenticated : Bool) (socket_id : String)
    (st : ManagerState) : ManagerState :=
  if is_authenticated then remove_connection socket_id st else st

/-- `widget_rate_limiter.check_connection_limits` with the limits the
handler passes (the exchange limit from the config row, the per-ip limit
left at its default 10): the first violated limit in source order wins.
Returns the close code and reason of the denial, or nothing when
allowed. -/
def check_connection_limits (exch_count ip_count : Nat)
    (max_connections_per_exchange : Nat) : Option (Nat × String) :=
  if exch_count ≥ max_connections_per_exchange then
    some (4004, "exchange connection limit reached")
  else if ip_count ≥ 10 then some (4005, "ip connection limit reached")
  else none

/-- `widget_rate_limiter.check_message_rate`: `INCR` of the
minute-bucket key, then denial when the incremented count exceeds the
limit.  Returns the new count and whether the message is allowed. -/
def check_message_rate (count limit : Nat) : Nat × Bool :=
  (count + 1, decide (count + 1 ≤ limit))

/-- A client frame as seen by `socket.on('message')`: either it parses
as a JSON object (of which the handler reads only `type` and
`api_key`), or `JSON.parse` throws on it — which is the case for the
bare text frame `ping` the frontend sends. -/
structure WsMessage where
  msg_type : Option String
  api_key : Option String
deriving DecidableEq

inductive Frame where
  | json : WsMessage → Frame
  | nonJson : String → Frame
deriving DecidableEq

/-- The externally visible effects a handler performs on one frame:
sends of `{type:'error',...}`, `{type:'pong'}` and
`{type:'auth_success',...}`, socket closure, and the session-local side
effects of a successful authentication (clearing the auth timer,
registering with the connection manager, starting the heartbeat). -/
inductive WsAction where
  | send_error : String → Nat → WsAction
  | close_socket : Nat → String → WsAction
  | send_pong : WsAction
  | send_auth_success : String → WsAction
  | clear_auth_timeout : WsAction
  | register_connection : String → String → WsAction
  | start_heartbeat : WsAction
deriving DecidableEq

/-- The per-session flags of widget.websocket.js. -/
structure SessionState where
  is_authenticated : Bool
  exchange_id : Option String
deriving DecidableEq

/-- The environment a session closure reads: the exchange table, the
Origin header, the client ip, and the counter values the connection
manager would report at admission time. -/
structure WsEnv where
  db : List ExchangeConfig
  origin : Option String
  ip : String
  exch_conn_count : Nat
  ip_conn_count : Nat

/-- `handle_auth`, translated clause by clause: the auth-message shape
check (any other message type, or a falsy api_key, is rejected with
4002), the api-key lookup (4002), the `is_active` check (4003), the
origin allow-list check (4008), connection admission (4004 or 4005),
and the success path. -/
def handle_auth (env : WsEnv) (st : SessionState) (m : WsMessage) :
    SessionState × List WsAction :=
  if m.msg_type ≠ some "auth" || (m.api_key = none || m.api_key = some "") then
    (st, [.send_error "invalid auth message" 4002,
          .close_socket 4002 "Invalid auth"])
  else
    match get_exchange_by_api_key env.db (m.api_key.getD "") with
    | none =>
      (st, [.send_error "invalid api key" 4002,
            .close_socket 4002 "Invalid API key"])
    | some cfg =>
      if ¬ cfg.is_active then
        (st, [.send_error "exchange inactive" 4003,
              .close_socket 4003 "Exchange inactive"])
      else if cfg.allowed_origins ≠ [] &&
          (match env.origin with
           | some o => o ≠ "" && ¬ cfg.allowed_origins.contains o
           | none => false) then
        (st, [.send_error "origin not allowed" 4008,
              .close_socket 4008 "Origin not allowed"])
      else
        match check_connection_limits env.exch_conn_count env.ip_conn_count
            cfg.rate_limit_connections with
        | some (code, reason) =>
          (st, [.send_error reason code, .close_socket code reason])
        | none =>
          ({ is_authenticated := true, exchange_id := some cfg.exchange_id },
           [.clear_auth_timeout,
            .register_connection cfg.exchange_id env.ip,
            .start_heartbeat,
            .send_auth_success cfg.exchange_id])

/-- `handle_message`: the message-rate check (denial sends the 4006
error and returns — the socket is not closed), then the type switch
whose only case is `ping`; every other type falls through to the
ignoring default.  Returns the new minute-bucket count. -/
def handle_message (st : SessionState) (count : Nat) (m : WsMessage) :
    SessionState × Nat × List WsAction :=
  match check_message_rate count 60 with
  | (c, false) => (st, c, [.send_error "message rate limit exceeded" 4006])
  | (c, true) =>
    match m.msg_type with
    | some "ping" => (st, c, [.send_pong])
    | _ => (st, c, [])

/-- The whole session state threaded through `socket.on('message')`. -/
structure GwState where
  session : SessionState
  msg_count : Nat
deriving DecidableEq

/-- The `socket.on('message')` handler: `JSON.parse` every frame (the
catch clause answers a parse failure with the 4007 error send, without
closing), then dispatch on `is_authenticated`. -/
def on_message (env : WsEnv) (g : GwState) (f : Frame) :
    GwState × List WsAction :=
  match f with
  | .nonJson _ => (g, [.send_error "invalid message format" 4007])
  | .json m =>
    if g.session.is_authenticated then
      match handle_message g.session g.msg_count m with
      | (s, c, acts) => (⟨s, c⟩, acts)
    else
      match handle_auth env g.session m with
      | (s, acts) => (⟨s, g.msg_count⟩, acts)

/-- Conjunction of the three trade-params checks performed by
`create_signed_token`, as a standalone predicate: truthy coin, truthy
amount, truthy side, side one of long and short, amount of number type
and not `<= 0`. -/
def params_ok (tp : TradeParams) : Bool :=
  js_truthy tp.coin && js_truthy tp.amount && js_truthy tp.side
    && js_side_ok tp.side
    && (js_is_number tp.amount && ! js_le_zero tp.amount)

/-- Trade-params validity in the words of the spec (for comparison with
the code's `params_ok`): non-empty asset symbol, side in {long, short},
and a finite positive amount.  The spec additionally says "within
configured bounds", but neither the schema nor the code defines any
amount bound, so there is no bound to model. -/
def spec_params_valid (tp : TradeParams) : Bool :=
  (match tp.coin with | .str s => s ≠ "" | _ => false)
    && js_side_ok tp.side
    && (match tp.amount with | .num (.finite q) => 0 < q | _ => false)

/-- Shared test fixtures. -/
def acme_active : ExchangeConfig :=
  ⟨"acme", "wk_1", "sk_1", "Acme", [], 10000, true⟩

def acme_inactive : ExchangeConfig :=
  ⟨"acme", "wk_1", "sk_1", "Acme", [], 10000, false⟩

def btc_params : TradeParams :=
  ⟨.str "BTC", .num (.finite 100), .str "long", .undef⟩

/-- An exchange table in which no row both matches the requested id and
is active resolves to nothing. -/
theorem get_exchange_config_eq_none_of_inactive (db : List ExchangeConfig)
    (id : String)
    (h : ∀ cfg ∈ db, cfg.exchange_id = id → cfg.is_active = false) :
    get_exchange_config db id = none := by
  unfold get_exchange_config
  rw [List.find?_eq_none]
  intro c hc hp
  rw [Bool.and_eq_true, decide_eq_true_eq] at hp
  have := h c hc hp.1
  rw [this] at hp
  exact Bool.false_ne_true hp.2

/-- Claim C1 (confirmed).  A token-issuance request whose exchange id
resolves to no active `exchange_configurations` row (unknown tenant or
`is_active` false) fails in the service with the INVALID_EXCHANGE error
carrying the message "invalid or inactive exchange id", the controller
reports it as HTTP 400 with that message, and the store — in particular
the `widget_trades` audit log — is returned unchanged, because the
lookup precedes any persistence. -/
theorem C1_invalid_exchange_rejected_before_persistence
    (db : List ExchangeConfig) (store : Store) (now : Nat)
    (body : RequestBody) (tp : TradeParams)
    (hid : body.exchange_id ≠ "")
    (huser : body.exchange_user_id ≠ "")
    (htp : body.trade_params = some tp)
    (hdb : ∀ cfg ∈ db, cfg.exchange_id = body.exchange_id →
      cfg.is_active = false) :
    create_signed_token db store now
        ⟨body.exchange_id, body.exchange_user_id, tp⟩
      = (.error ⟨"invalid or inactive exchange id", some "INVALID_EXCHANGE"⟩,
         store) ∧
    generate_trade_token db store now body
      = (.client_error "invalid or inactive exchange id" 400, store) := by
  have hnone := get_exchange_config_eq_none_of_inactive db body.exchange_id hdb
  constructor
  · unfold create_signed_token
    rw [hnone]
  · unfold generate_trade_token
    rw [if_neg hid, if_neg huser, htp]
    simp [create_signed_token, hnone]

/-- The payload of the token issued for the fixture request: first
trade id 0, issued at 1000, expiring at 1030. -/
def payload0 : Payload :=
  ⟨0, "acme", "u1", .str "BTC", .num (.finite 100), .str "long", .null,
   1000, 1030⟩

/-- The issued window arithmetic: `(now + ttl) − now = ttl`. -/
theorem window_sub (now : Nat) :
    now + TOKEN_EXPIRY_SECONDS - now = TOKEN_EXPIRY_SECONDS := by omega

/-- Verification of a signed token succeeds exactly with the signing
key. -/
theorem jwt_verify_key_iff (p : Payload) (k key : String) :
    jwt_verify (jwt_sign p k) key = true ↔ key = k := by
  simp [jwt_verify, jwt_sign, Sig.mk.injEq, eq_comm]

/-- Carrying any payload other than the signed one under the original
signature fails verification. -/
theorem jwt_verify_tampered (p p' : Payload) (k : String) (hne : p' ≠ p) :
    jwt_verify ⟨p', (jwt_sign p k).sig⟩ k = false := by
  simp only [jwt_verify, jwt_sign]
  rw [decide_eq_false_iff_not]
  intro hcontra
  rw [Sig.mk.injEq] at hcontra
  exact hne hcontra.1.symm

/-- Bumping the signed amount by one unit fails verification. -/
theorem jwt_verify_amount_bumped (p : Payload) (k : String) (q : ℚ)
    (hq : p.amount = .num (.finite q)) :
    jwt_verify ⟨{ p with amount := .num (.finite (q + 1)) },
        (jwt_sign p k).sig⟩ k = false := by
  apply jwt_verify_tampered
  intro hcontra
  have hamount : JSVal.num (JSNum.finite (q + 1)) = p.amount :=
    congrArg Payload.amount hcontra
  rw [hq, JSVal.num.injEq, JSNum.finite.injEq] at hamount
  linarith

/-- Claim C3 (confirmed).  Every successfully issued trade token has
`exp − iat` equal to the fixed 30-second window, is signed with the
issuing exchange's `secret_signing_key` over the complete payload
(trade id, exchange id, user id, coin, amount, side, news id, iat,
exp), verifies exactly with that key, and any alteration of the carried
payload — in particular changing the amount by one unit — makes
verification fail. -/
theorem C3_token_window_and_signature
    (db : List ExchangeConfig) (store : Store) (now : Nat)
    (req : IssueRequest) (cfg : ExchangeConfig) (r : TokenResult) (s : Store)
    (hcfg : get_exchange_config db req.exchange_id = some cfg)
    (hrun : create_signed_token db store now req = (.ok r, s)) :
    r.token.payload.exp - r.token.payload.iat = TOKEN_EXPIRY_SECONDS ∧
    r.token = jwt_sign r.token.payload cfg.secret_signing_key ∧
    (∀ key, jwt_verify r.token key = true ↔ key = cfg.secret_signing_key) ∧
    (∀ p : Payload, p ≠ r.token.payload →
      jwt_verify ⟨p, r.token.sig⟩ cfg.secret_signing_key = false) ∧
    (∀ q : ℚ, r.token.payload.amount = .num (.finite q) →
      jwt_verify
        ⟨{ r.token.payload with amount := .num (.finite (q + 1)) },
          r.token.sig⟩ cfg.secret_signing_key = false) := by
  unfold create_signed_token at hrun
  simp only [hcfg] at hrun
  repeat' split at hrun
  all_goals simp only [Prod.mk.injEq] at hrun
  any_goals exact absurd hrun.1 (fun h => Except.noConfusion h)
  all_goals obtain ⟨hr, hs⟩ := hrun
  all_goals rw [Except.ok.injEq] at hr
  all_goals subst hr
  all_goals
    exact ⟨window_sub now, rfl,
           fun key => jwt_verify_key_iff _ _ key,
           fun p hp => jwt_verify_tampered _ p _ hp,
           fun q hq => jwt_verify_amount_bumped _ _ q hq⟩

/-- Witness for C3: the fixture issuance against active `acme` with
signing key sk_1, showing the 30-second window, successful verification
with sk_1, failure with another key, and failure after bumping the
amount by one. -/
theorem C3_token_window_and_signature_witness :
    create_signed_token [acme_active] ⟨[], [], 0⟩ 1000
        ⟨"acme", "u1", btc_params⟩
      = (.ok ⟨jwt_sign payload0 "sk_1", 0, 30⟩,
         ⟨[], [⟨0, "acme", "u1", btc_params, "initiated"⟩], 1⟩) ∧
    payload0.exp - payload0.iat = TOKEN_EXPIRY_SECONDS ∧
    jwt_verify (jwt_sign payload0 "sk_1") "sk_1" = true ∧
    (jwt_verify (jwt_sign payload0 "sk_1") "sk_2" = true ↔
      "sk_2" = acme_active.secret_signing_key) ∧
    jwt_verify
        ⟨{ payload0 with amount := .num (.finite (100 + 1)) },
          (jwt_sign payload0 "sk_1").sig⟩ "sk_1" = false := by
  have hrun : create_signed_token [acme_active] ⟨[], [], 0⟩ 1000
      ⟨"acme", "u1", btc_params⟩
      = (.ok ⟨jwt_sign payload0 "sk_1", 0, 30⟩,
         ⟨[], [⟨0, "acme", "u1", btc_params, "initiated"⟩], 1⟩) := by
    rfl
  have h := C3_token_window_and_signature [acme_active] ⟨[], [], 0⟩ 1000
    ⟨"acme", "u1", btc_params⟩ acme_active
    ⟨jwt_sign payload0 "sk_1", 0, 30⟩
    ⟨[], [⟨0, "acme", "u1", btc_params, "initiated"⟩], 1⟩ (by decide) hrun
  exact ⟨hrun, h.1, (h.2.2.1 "sk_1").mpr rfl, h.2.2.1 "sk_2",
    h.2.2.2.2 100 rfl⟩

/-- Fixture trade params with a NaN amount (falsy, so rejected by the
first check). -/
def nan_params : TradeParams := ⟨.str "BTC", .num .nan, .str "long", .undef⟩

/-- Fixture trade params with amount +Infinity (truthy, of number type,
and not `<= 0`, so accepted by every check). -/
def inf_params : TradeParams := ⟨.str "BTC", .num .posInf, .str "long", .undef⟩

/-- A persistence failure thrown by `create_trade_log` carries no
`code` property (so the controller treats it as a server error). -/
theorem create_trade_log_error_code (store : Store) (exid uid : String)
    (tp : TradeParams) (e : JsError) (s : Store)
    (h : create_trade_log store exid uid tp = (.error e, s)) :
    e.code = none := by
  unfold create_trade_log at h
  cases hstore : db_attempt store with
  | mk ok s1 =>
    rw [hstore] at h
    cases ok
    · simp only [Prod.mk.injEq, Except.error.injEq] at h
      rw [← h.1]
    · simp at h

/-- Claim C4 (corrected).  Against an active exchange, the service
fails with INVALID_TRADE_PARAMS exactly when the code's checks fail —
truthy coin, truthy amount, truthy side, side one of long and short,
amount of number type and not `<= 0` — and on such a failure nothing is
persisted.  This differs from the spec's validity notion in that NaN is
rejected only because NaN is falsy, +Infinity is accepted (it is truthy
and not `<= 0`), and no configured amount bound is checked (none
exists). -/
theorem C4_validation_matches_code_checks
    (db : List ExchangeConfig) (store : Store) (now : Nat)
    (req : IssueRequest) (cfg : ExchangeConfig)
    (hcfg : get_exchange_config db req.exchange_id = some cfg) :
    ((∃ e : JsError, (create_signed_token db store now req).1 = .error e ∧
        e.code = some "INVALID_TRADE_PARAMS")
      ↔ params_ok req.trade_params = false) ∧
    (params_ok req.trade_params = false →
      (create_signed_token db store now req).2 = store) := by
  unfold create_signed_token
  simp only [hcfg]
  by_cases h1 : (js_truthy req.trade_params.coin
      && js_truthy req.trade_params.amount
      && js_truthy req.trade_params.side) = true
  · by_cases h2 : js_side_ok req.trade_params.side = true
    · by_cases h3 : (js_is_number req.trade_params.amount
          && ! js_le_zero req.trade_params.amount) = true
      · obtain ⟨hn, hz⟩ : js_is_number req.trade_params.amount = true ∧
            js_le_zero req.trade_params.amount = false := by
          simpa using h3
        have hok : params_ok req.trade_params = true := by
          unfold params_ok
          simp [h1, h2, hn, hz]
        rw [hok]
        simp only [Bool.true_eq_false, iff_false, false_implies, and_true]
        rintro ⟨e, he, hcode⟩
        rw [if_neg (by simp [h1]), if_neg (by simp [h2]),
          if_neg (by simp [hn, hz])] at he
        cases hlog : create_trade_log store req.exchange_id
            req.exchange_user_id req.trade_params with
        | mk res s' =>
          rw [hlog] at he
          cases res with
          | ok tid => simp at he
          | error e2 =>
            have hnone := create_trade_log_error_code store req.exchange_id
              req.exchange_user_id req.trade_params e2 s' hlog
            simp only [Except.error.injEq] at he
            rw [← he] at hcode
            rw [hnone] at hcode
            exact Option.noConfusion hcode
      · have h3' : (js_is_number req.trade_params.amount
            && ! js_le_zero req.trade_params.amount) = false :=
          Bool.eq_false_iff.mpr h3
        have hfalse : params_ok req.trade_params = false := by
          unfold params_ok
          simp [h3']
        rw [hfalse]
        cases hn : js_is_number req.trade_params.amount <;>
          cases hz : js_le_zero req.trade_params.amount <;>
          simp_all [h1, h2]
    · have h2' : js_side_ok req.trade_params.side = false :=
        Bool.eq_false_iff.mpr h2
      have hfalse : params_ok req.trade_params = false := by
        unfold params_ok
        simp [h2']
      rw [hfalse]
      simp [h1, h2']
  · have h1' : (js_truthy req.trade_params.coin
        && js_truthy req.trade_params.amount
        && js_truthy req.trade_params.side) = false :=
      Bool.eq_false_iff.mpr h1
    have hfalse : params_ok req.trade_params = false := by
      unfold params_ok
      simp [h1']
    rw [hfalse]
    simp [h1']

/-- Witness for C4: the amended theorem at a NaN amount against active
`acme` (NaN is falsy, so the first check rejects it and nothing is
written). -/
theorem C4_validation_matches_code_checks_witness :
    ((∃ e : JsError, (create_signed_token [acme_active] ⟨[], [], 0⟩ 1000
          ⟨"acme", "u1", nan_params⟩).1 = .error e ∧
        e.code = some "INVALID_TRADE_PARAMS")
      ↔ params_ok nan_params = false) ∧
    (params_ok nan_params = false →
      (create_signed_token [acme_active] ⟨[], [], 0⟩ 1000
          ⟨"acme", "u1", nan_params⟩).2 = ⟨[], [], 0⟩) :=
  C4_validation_matches_code_checks [acme_active] ⟨[], [], 0⟩ 1000
    ⟨"acme", "u1", nan_params⟩ acme_active (by decide)

/-- Counterexample for C4 as stated: amount +Infinity is not a finite
number, so the spec demands InvalidTradeParams and no persistence, yet
the code signs a token for it and writes the audit row (JavaScript
`!Infinity` is false and `Infinity <= 0` is false, and no finiteness or
bounds check exists). -/
theorem C4_infinite_amount_accepted :
    (create_signed_token [acme_active] ⟨[], [], 0⟩ 1000
        ⟨"acme", "u1", inf_params⟩).1
      = .ok ⟨jwt_sign ⟨0, "acme", "u1", .str "BTC", .num .posInf,
          .str "long", .null, 1000, 1030⟩ "sk_1", 0, 30⟩ ∧
    (create_signed_token [acme_active] ⟨[], [], 0⟩ 1000
        ⟨"acme", "u1", inf_params⟩).2.log.length = 1 ∧
    spec_params_valid inf_params = false ∧
    params_ok inf_params = true := by
  exact ⟨rfl, rfl, by decide, by decide⟩

/-- Fixture manager state with no live connections and nonzero counter
baselines. -/
def mgr0 : ManagerState := ⟨[], fun _ => 3, fun _ => 4⟩

/-- Claim C2 (corrected).  For a session id not yet in the manager map:
a remote close of an authenticated session after `add_connection`
restores both counters to their prior values and removes the map entry
(the decrement happens exactly once); a second teardown of the same
session is a no-op (the map lookup guard); a close of a session that
never authenticated touches nothing.  However — the correction — after
`graceful_shutdown` the close event decrements nothing, so the exchange
counter stays inflated by one. -/
theorem C2_teardown_balanced_except_shutdown (st : ManagerState)
    (sid ex ip : String)
    (hfresh : ∀ p ∈ st.connections, p.1 ≠ sid) :
    (on_close_event true sid (add_connection sid ex ip st)).exch_count ex
        = st.exch_count ex ∧
    (on_close_event true sid (add_connection sid ex ip st)).ip_count ip
        = st.ip_count ip ∧
    (on_close_event true sid (add_connection sid ex ip st)).connections
        = st.connections ∧
    on_close_event true sid
        (on_close_event true sid (add_connection sid ex ip st))
      = on_close_event true sid (add_connection sid ex ip st) ∧
    on_close_event false sid st = st ∧
    (on_close_event true sid
        (graceful_shutdown (add_connection sid ex ip st))).exch_count ex
      = st.exch_count ex + 1 := by
  have hfilter : st.connections.filter (fun p => p.1 ≠ sid) = st.connections := by
    apply List.filter_eq_self.mpr
    intro a ha
    simpa using hfresh a ha
  have hnone : st.connections.find? (fun p => p.1 = sid) = none := by
    rw [List.find?_eq_none]
    intro a ha
    simpa using hfresh a ha
  have hclose : on_close_event true sid (add_connection sid ex ip st)
      = { connections := st.connections,
          exch_count := bump (bump st.exch_count ex 1) ex (-1),
          ip_count := bump (bump st.ip_count ip 1) ip (-1) } := by
    unfold on_close_event remove_connection add_connection
    simp [hfilter, hnone]
    intro a b hab
    exact hfresh (a, b) hab
  refine ⟨?_, ?_, ?_, ?_, ?_, ?_⟩
  · rw [hclose]; simp [bump]
  · rw [hclose]; simp [bump]
  · rw [hclose]
  · rw [hclose]
    unfold on_close_event remove_connection
    simp [hnone]
  · rfl
  · unfold graceful_shutdown on_close_event remove_connection add_connection
    simp [bump]

/-- Witness for C2: the balanced-teardown theorem instantiated on an
empty manager with counter baselines 3 and 4. -/
theorem C2_teardown_balanced_except_shutdown_witness :
    (on_close_event true "s1"
        (add_connection "s1" "acme" "10.0.0.1" mgr0)).exch_count "acme"
        = mgr0.exch_count "acme" ∧
    (on_close_event true "s1"
        (add_connection "s1" "acme" "10.0.0.1" mgr0)).ip_count "10.0.0.1"
        = mgr0.ip_count "10.0.0.1" ∧
    (on_close_event true "s1"
        (add_connection "s1" "acme" "10.0.0.1" mgr0)).connections
        = mgr0.connections ∧
    on_close_event true "s1"
        (on_close_event true "s1" (add_connection "s1" "acme" "10.0.0.1" mgr0))
      = on_close_event true "s1" (add_connection "s1" "acme" "10.0.0.1" mgr0) ∧
    on_close_event false "s1" mgr0 = mgr0 ∧
    (on_close_event true "s1"
        (graceful_shutdown (add_connection "s1" "acme" "10.0.0.1" mgr0))).exch_count
        "acme"
      = mgr0.exch_count "acme" + 1 :=
  C2_teardown_balanced_except_shutdown mgr0 "s1" "acme" "10.0.0.1"
    (by simp [mgr0])

/-- Counterexample for C2 as stated: after a server-initiated
`graceful_shutdown`, the close event of an authenticated session finds
the map already cleared and decrements nothing, so the exchange and ip
counters remain at 1 instead of returning to 0 — the session that
reached Authenticated is never decremented on this terminating
transition. -/
theorem C2_shutdown_never_decrements :
    (on_close_event true "s1"
        (graceful_shutdown
          (add_connection "s1" "acme" "10.0.0.1"
            ⟨[], fun _ => 0, fun _ => 0⟩))).exch_count "acme" = 1 ∧
    (on_close_event true "s1"
        (graceful_shutdown
          (add_connection "s1" "acme" "10.0.0.1"
            ⟨[], fun _ => 0, fun _ => 0⟩))).ip_count "10.0.0.1" = 1 ∧
    ¬ (on_close_event true "s1"
        (graceful_shutdown
          (add_connection "s1" "acme" "10.0.0.1"
            ⟨[], fun _ => 0, fun _ => 0⟩))).exch_count "acme" = 0 := by
  refine ⟨rfl, rfl, by decide⟩

/-- Witness for C1: the concrete scenario of the spec, run against an
inactive `acme`. -/
theorem C1_invalid_exchange_rejected_before_persistence_witness :
    (⟨"acme", "u1", some btc_params⟩ : RequestBody).exchange_id ≠ "" ∧
    generate_trade_token [acme_inactive] ⟨[], [], 0⟩ 1000
        ⟨"acme", "u1", some btc_params⟩
      = (.client_error "invalid or inactive exchange id" 400, ⟨[], [], 0⟩) :=
  ⟨by decide,
   (C1_invalid_exchange_rejected_before_persistence [acme_inactive]
      ⟨[], [], 0⟩ 1000 ⟨"acme", "u1", some btc_params⟩ btc_params
      (by decide) (by decide) rfl (by decide)).2⟩

/-- Claim C5 (corrected).  When the `widget_trades` insert fails, the
write is not retried: the single failed attempt consumes one scripted
outcome, no audit row is written, no token is returned, and the
controller surfaces the error as a generic server error via
`next(error)`. -/
theorem C5_persistence_failure_not_retried
    (db : List ExchangeConfig) (store : Store) (now : Nat)
    (body : RequestBody) (tp : TradeParams) (cfg : ExchangeConfig)
    (rest : List Bool)
    (hid : body.exchange_id ≠ "")
    (huser : body.exchange_user_id ≠ "")
    (htp : body.trade_params = some tp)
    (hcfg : get_exchange_config db body.exchange_id = some cfg)
    (hcoin : js_truthy tp.coin = true)
    (hamt : js_truthy tp.amount = true)
    (hside : js_truthy tp.side = true)
    (hsok : js_side_ok tp.side = true)
    (hnum : js_is_number tp.amount = true)
    (hpos : js_le_zero tp.amount = false)
    (hfail : store.outcomes = false :: rest) :
    generate_trade_token db store now body
      = (.server_error, ⟨rest, store.log, store.next_id⟩) := by
  unfold generate_trade_token
  rw [if_neg hid, if_neg huser]
  simp only [htp]
  unfold create_signed_token
  simp only [hcfg]
  rw [if_neg (by simp [hcoin, hamt, hside]), if_neg (by simp [hsok]),
    if_neg (by simp [hnum, hpos])]
  unfold create_trade_log db_attempt
  rw [hfail]
  rfl

/-- Witness for C5: a store scripted to fail its only attempt; the
outcome list is consumed and the caller sees a server error. -/
theorem C5_persistence_failure_not_retried_witness :
    generate_trade_token [acme_active] ⟨[false], [], 5⟩ 1000
        ⟨"acme", "u1", some btc_params⟩
      = (.server_error, ⟨[], [], 5⟩) :=
  C5_persistence_failure_not_retried [acme_active] ⟨[false], [], 5⟩ 1000
    ⟨"acme", "u1", some btc_params⟩ btc_params acme_active []
    (by decide) (by decide) rfl (by decide) (by decide) (by decide)
    (by decide) (by decide) (by decide) (by decide) rfl

/-- Counterexample for C5 as stated: the store is scripted so that the
first insert attempt fails and a second would succeed.  A write retried
exactly once would succeed and return a token; the code instead leaves
the second scripted outcome unconsumed and surfaces a server error with
no token and no audit row. -/
theorem C5_no_retry_on_first_failure :
    generate_trade_token [acme_active] ⟨[false, true], [], 0⟩ 1000
        ⟨"acme", "u1", some btc_params⟩
      = (.server_error, ⟨[true], [], 0⟩) := rfl

/-- Claim C6 (corrected).  A first message before authentication whose
type is anything but auth is rejected and the socket closed, but with
close code 4002 (the AuthFailed branch, error text "invalid auth
message"), not the 4007 InvalidMessage code the spec names; the session
flags are unchanged. -/
theorem C6_non_auth_first_message_closed_4002
    (env : WsEnv) (g : GwState) (m : WsMessage)
    (hauth : g.session.is_authenticated = false)
    (htype : m.msg_type ≠ some "auth") :
    on_message env g (.json m)
      = (g, [.send_error "invalid auth message" 4002,
             .close_socket 4002 "Invalid auth"]) := by
  unfold on_message handle_auth
  simp [hauth, htype]

/-- Witness for C6: a pre-auth frame of type hello is answered with the
4002 error and close. -/
theorem C6_non_auth_first_message_closed_4002_witness :
    on_message ⟨[acme_active], none, "203.0.113.7", 0, 0⟩ ⟨⟨false, none⟩, 0⟩
        (.json ⟨some "hello", none⟩)
      = (⟨⟨false, none⟩, 0⟩,
         [.send_error "invalid auth message" 4002,
          .close_socket 4002 "Invalid auth"]) :=
  C6_non_auth_first_message_closed_4002
    ⟨[acme_active], none, "203.0.113.7", 0, 0⟩ ⟨⟨false, none⟩, 0⟩
    ⟨some "hello", none⟩ rfl (by decide)

/-- Counterexample for C6 as stated: a pre-auth ping message is closed
with 4002, and no close with code 4007 appears in the wire actions. -/
theorem C6_counterexample_ping_before_auth :
    on_message ⟨[acme_active], none, "203.0.113.7", 0, 0⟩ ⟨⟨false, none⟩, 0⟩
        (.json ⟨some "ping", none⟩)
      = (⟨⟨false, none⟩, 0⟩,
         [.send_error "invalid auth message" 4002,
          .close_socket 4002 "Invalid auth"]) ∧
    (∀ reason, WsAction.close_socket 4007 reason ∉
      (on_message ⟨[acme_active], none, "203.0.113.7", 0, 0⟩
        ⟨⟨false, none⟩, 0⟩ (.json ⟨some "ping", none⟩)).2) := by
  constructor
  · rfl
  · intro reason
    have h : (on_message ⟨[acme_active], none, "203.0.113.7", 0, 0⟩
        ⟨⟨false, none⟩, 0⟩ (.json ⟨some "ping", none⟩)).2
        = [.send_error "invalid auth message" 4002,
           .close_socket 4002 "Invalid auth"] := rfl
    rw [h]
    simp

/-- Claim C7 (corrected).  When an authenticated session exceeds the
per-minute message rate, the handler sends the 4006 error frame and
discards the message, but does not close the socket: no close action is
emitted and the session stays authenticated with only its minute
counter advanced. -/
theorem C7_rate_limited_message_not_closed
    (env : WsEnv) (g : GwState) (m : WsMessage)
    (hauth : g.session.is_authenticated = true)
    (hcount : 60 ≤ g.msg_count) :
    on_message env g (.json m)
      = (⟨g.session, g.msg_count + 1⟩,
         [.send_error "message rate limit exceeded" 4006]) ∧
    (∀ code reason, WsAction.close_socket code reason ∉
      (on_message env g (.json m)).2) := by
  have hallowed : decide (g.msg_count + 1 ≤ 60) = false := by
    simp
    omega
  have hmain : on_message env g (.json m)
      = (⟨g.session, g.msg_count + 1⟩,
         [.send_error "message rate limit exceeded" 4006]) := by
    unfold on_message handle_message check_message_rate
    simp only [hauth, if_true, hallowed]
  refine ⟨hmain, ?_⟩
  intro code reason
  rw [hmain]
  simp

/-- Witness for C7: the 100th message in the minute bucket draws the
4006 error and the session stays open. -/
theorem C7_rate_limited_message_not_closed_witness :
    on_message ⟨[acme_active], none, "203.0.113.7", 0, 0⟩
        ⟨⟨true, some "acme"⟩, 99⟩ (.json ⟨some "ping", none⟩)
      = (⟨⟨true, some "acme"⟩, 100⟩,
         [.send_error "message rate limit exceeded" 4006]) ∧
    WsAction.close_socket 4006 "rate" ∉
      (on_message ⟨[acme_active], none, "203.0.113.7", 0, 0⟩
        ⟨⟨true, some "acme"⟩, 99⟩ (.json ⟨some "ping", none⟩)).2 :=
  ⟨(C7_rate_limited_message_not_closed
      ⟨[acme_active], none, "203.0.113.7", 0, 0⟩ ⟨⟨true, some "acme"⟩, 99⟩
      ⟨some "ping", none⟩ rfl (by decide)).1,
   (C7_rate_limited_message_not_closed
      ⟨[acme_active], none, "203.0.113.7", 0, 0⟩ ⟨⟨true, some "acme"⟩, 99⟩
      ⟨some "ping", none⟩ rfl (by decide)).2 4006 "rate"⟩

/-- Counterexample for C7 as stated: the 61st message of the minute is
answered with the 4006 error frame, but the action list contains no
socket close — the connection is left open, where the claim says it is
closed with close code 4006. -/
theorem C7_counterexample_61st_message_no_close :
    on_message ⟨[acme_active], none, "203.0.113.7", 0, 0⟩
        ⟨⟨true, some "acme"⟩, 60⟩ (.json ⟨some "ping", none⟩)
      = (⟨⟨true, some "acme"⟩, 61⟩,
         [.send_error "message rate limit exceeded" 4006]) ∧
    (∀ code reason, WsAction.close_socket code reason ∉
      (on_message ⟨[acme_active], none, "203.0.113.7", 0, 0⟩
        ⟨⟨true, some "acme"⟩, 60⟩ (.json ⟨some "ping", none⟩)).2) := by
  constructor
  · rfl
  · intro code reason
    have h : (on_message ⟨[acme_active], none, "203.0.113.7", 0, 0⟩
        ⟨⟨true, some "acme"⟩, 60⟩ (.json ⟨some "ping", none⟩)).2
        = [.send_error "message rate limit exceeded" 4006] := rfl
    rw [h]
    simp

/-- Claim C8 (corrected).  The wire responses for an unknown connection
key and for a known-but-inactive tenant are not identical: the unknown
key draws the error "invalid api key" with close code 4002, the
inactive tenant draws "exchange inactive" with close code 4003, so an
unauthenticated caller can distinguish the two cases from the wire. -/
theorem C8_wire_distinguishes_unknown_from_inactive
    (env : WsEnv) (g : GwState) (k : String)
    (hauth : g.session.is_authenticated = false)
    (hk : k ≠ "") :
    (get_exchange_by_api_key env.db k = none →
      (on_message env g (.json ⟨some "auth", some k⟩)).2
        = [.send_error "invalid api key" 4002,
           .close_socket 4002 "Invalid API key"]) ∧
    (∀ cfg, get_exchange_by_api_key env.db k = some cfg →
      cfg.is_active = false →
      (on_message env g (.json ⟨some "auth", some k⟩)).2
        = [.send_error "exchange inactive" 4003,
           .close_socket 4003 "Exchange inactive"]) := by
  constructor
  · intro hnone
    unfold on_message handle_auth
    simp [hauth, hk, hnone]
  · intro cfg hsome hinact
    unfold on_message handle_auth
    simp [hauth, hk, hsome, hinact]

/-- Witness for C8: against a table holding only the inactive `acme`,
the unknown key wk_zzz is answered with 4002 and the known key wk_1
with 4003. -/
theorem C8_wire_distinguishes_unknown_from_inactive_witness :
    (on_message ⟨[acme_inactive], none, "203.0.113.7", 0, 0⟩
        ⟨⟨false, none⟩, 0⟩ (.json ⟨some "auth", some "wk_zzz"⟩)).2
      = [.send_error "invalid api key" 4002,
         .close_socket 4002 "Invalid API key"] ∧
    (on_message ⟨[acme_inactive], none, "203.0.113.7", 0, 0⟩
        ⟨⟨false, none⟩, 0⟩ (.json ⟨some "auth", some "wk_1"⟩)).2
      = [.send_error "exchange inactive" 4003,
         .close_socket 4003 "Exchange inactive"] :=
  ⟨(C8_wire_distinguishes_unknown_from_inactive
      ⟨[acme_inactive], none, "203.0.113.7", 0, 0⟩ ⟨⟨false, none⟩, 0⟩
      "wk_zzz" rfl (by decide)).1 (by decide),
   (C8_wire_distinguishes_unknown_from_inactive
      ⟨[acme_inactive], none, "203.0.113.7", 0, 0⟩ ⟨⟨false, none⟩, 0⟩
      "wk_1" rfl (by decide)).2 acme_inactive (by decide) rfl⟩

/-- Counterexample for C8 as stated: the two wire responses are
distinguishable — the action lists for the unknown key and for the
inactive tenant differ. -/
theorem C8_counterexample_responses_differ :
    (on_message ⟨[acme_inactive], none, "203.0.113.7", 0, 0⟩
        ⟨⟨false, none⟩, 0⟩ (.json ⟨some "auth", some "wk_zzz"⟩)).2
      ≠ (on_message ⟨[acme_inactive], none, "203.0.113.7", 0, 0⟩
        ⟨⟨false, none⟩, 0⟩ (.json ⟨some "auth", some "wk_1"⟩)).2 := by
  decide

/-- Claim C9 (code bug).  The frontend keepalive
(`websocket_service.ts`) and the repository's own test client send the
bare text frame ping and the documented session log shows a pong reply,
but the backend handler JSON-parses every frame, so on an authenticated
session the bare ping — not being valid JSON — is answered with the
4007 invalid-message error and no pong is ever sent. -/
theorem C9_bare_ping_gets_error_not_pong :
    on_message ⟨[acme_active], none, "203.0.113.7", 0, 0⟩
        ⟨⟨true, some "acme"⟩, 0⟩ (.nonJson "ping")
      = (⟨⟨true, some "acme"⟩, 0⟩,
         [.send_error "invalid message format" 4007]) ∧
    WsAction.send_pong ∉
      (on_message ⟨[acme_active], none, "203.0.113.7", 0, 0⟩
        ⟨⟨true, some "acme"⟩, 0⟩ (.nonJson "ping")).2 := by
  decide

/-- Claim C10 (confirmed).  On an authenticated session, a well-formed
JSON message of any type other than ping that passes the rate check is
silently ignored: the session state is unchanged, no action (reply,
error or close) is emitted, and the only effect is the consumed unit of
the minute message budget. -/
theorem C10_unknown_type_silently_ignored
    (env : WsEnv) (g : GwState) (m : WsMessage)
    (hauth : g.session.is_authenticated = true)
    (htype : m.msg_type ≠ some "ping")
    (hrate : g.msg_count + 1 ≤ 60) :
    on_message env g (.json m) = (⟨g.session, g.msg_count + 1⟩, []) := by
  have hallowed : decide (g.msg_count + 1 ≤ 60) = true := by
    simpa using hrate
  unfold on_message handle_message check_message_rate
  simp only [hauth, if_true, hallowed]

/-- Witness for C10: a subscribe-typed message on an authenticated
session advances the counter from 5 to 6 and produces no action. -/
theorem C10_unknown_type_silently_ignored_witness :
    on_message ⟨[acme_active], none, "203.0.113.7", 0, 0⟩
        ⟨⟨true, some "acme"⟩, 5⟩ (.json ⟨some "subscribe", none⟩)
      = (⟨⟨true, some "acme"⟩, 6⟩, []) :=
  C10_unknown_type_silently_ignored
    ⟨[acme_active], none, "203.0.113.7", 0, 0⟩ ⟨⟨true, some "acme"⟩, 5⟩
    ⟨some "subscribe", none⟩ rfl (by decide) (by decide)
